import Mathlib

/-!
Shallow embedding of `src/Banco/src/app.py` (Mini_Proyecto_Banco).

The Python program keeps a single shared account (`CuentaBancaria`) with an
integer field `saldo` guarded by a `threading.Lock`.  Inside the critical
section each operation is pure integer arithmetic, so each operation is
modelled as a pure function from the current `saldo` (and the request data)
to the operation's return value together with the `saldo` after the call.
Python integers are unbounded, so `saldo` and `monto` are `Int`.
-/

/-- Result value of `CuentaBancaria.retirar`.  In Python the method returns
`(True, self.saldo)` on success and
`(False, "Fondos insuficientes. Saldo actual: $<saldo>")` on failure; the
failure string interpolates the saldo read inside the critical section, so
the failure constructor carries that integer. -/
inductive RetiroResult where
  | exito (nuevoSaldo : Int)
  | fondosInsuficientes (saldoActual : Int)
deriving DecidableEq

/-- Embedding of `CuentaBancaria.depositar`: inside the lock it executes
`self.saldo += monto` and returns `(True, self.saldo)`.  The result is
`((success flag, returned saldo), saldo after the call)`. -/
def CuentaBancaria.depositar (saldo monto : Int) : (Bool × Int) × Int :=
  ((true, saldo + monto), saldo + monto)

/-- Embedding of `CuentaBancaria.retirar`: inside the lock it tests
`self.saldo >= monto`; if so it executes `self.saldo -= monto` and returns
`(True, self.saldo)`, otherwise it returns the failure carrying the current
saldo and leaves `self.saldo` untouched.  The result is
`(returned value, saldo after the call)`. -/
def CuentaBancaria.retirar (saldo monto : Int) : RetiroResult × Int :=
  if saldo ≥ monto then (RetiroResult.exito (saldo - monto), saldo - monto)
  else (RetiroResult.fondosInsuficientes saldo, saldo)

/-- Flask session state relevant to the handlers: the two keys that `login`
stores and `logout` pops. -/
structure SessionState where
  cajero_id : Option String
  cajero_nombre : Option String
deriving DecidableEq

/-- Embedding of the `login_required` decorator's test: access is granted
exactly when the key `cajero_id` is present in the session. -/
def loginRequiredOk (sess : SessionState) : Bool :=
  sess.cajero_id.isSome

/-- Outcome of a request to `handle_depositar` / `handle_retirar`:
the 401 auth rejection produced by `login_required`, the 400 rejection for a
non-positive `monto`, the 200 success carrying `saldo_final`, or the 400
insufficient-funds error for `retirar` carrying the saldo embedded in the
message. -/
inductive HandlerResult where
  | authError
  | errorMonto
  | exito (saldoFinal : Int)
  | errorRetiro (saldoActual : Int)
deriving DecidableEq

/-- HTTP status code attached to each handler outcome in `app.py`:
`login_required` answers 401, the `monto <= 0` branch answers 400, the
success branch answers the default 200, and the failed-withdrawal branch
answers 400. -/
def statusCode : HandlerResult → Nat
  | HandlerResult.authError => 401
  | HandlerResult.errorMonto => 400
  | HandlerResult.exito _ => 200
  | HandlerResult.errorRetiro _ => 400

/-- Embedding of `handle_depositar` (with its `login_required` decorator):
reject with 401 when the session has no `cajero_id`; reject with 400 when
`monto <= 0`; otherwise call `cuenta_bancaria.depositar(monto)` and answer
with the returned saldo.  The result is `(response, saldo after)`. -/
def handle_depositar (sess : SessionState) (monto : Int) (saldo : Int) :
    HandlerResult × Int :=
  match sess.cajero_id with
  | none => (HandlerResult.authError, saldo)
  | some _ =>
    if monto ≤ 0 then (HandlerResult.errorMonto, saldo)
    else
      let r := CuentaBancaria.depositar saldo monto
      (HandlerResult.exito r.1.2, r.2)

/-- Embedding of `handle_retirar` (with its `login_required` decorator):
reject with 401 when the session has no `cajero_id`; reject with 400 when
`monto <= 0`; otherwise call `cuenta_bancaria.retirar(monto)` and answer
200 with the new saldo or 400 with the insufficient-funds message. -/
def handle_retirar (sess : SessionState) (monto : Int) (saldo : Int) :
    HandlerResult × Int :=
  match sess.cajero_id with
  | none => (HandlerResult.authError, saldo)
  | some _ =>
    if monto ≤ 0 then (HandlerResult.errorMonto, saldo)
    else
      match CuentaBancaria.retirar saldo monto with
      | (RetiroResult.exito n, s) => (HandlerResult.exito n, s)
      | (RetiroResult.fondosInsuficientes b, s) => (HandlerResult.errorRetiro b, s)

/-- Entry of the fixed credential directory `CAJEROS_DB`. -/
structure Cajero where
  id : Nat
  nombre : String
  pin : String
deriving DecidableEq

/-- The fixed directory `CAJEROS_DB` from `app.py`, keyed by the string id. -/
def CAJEROS_DB : List (String × Cajero) :=
  [("1001", ⟨1001, "Cajero Juan", "1234"⟩),
   ("1002", ⟨1002, "Cajero María", "4321"⟩),
   ("1003", ⟨1003, "Cajero Global", "0000"⟩)]

/-- Lookup in `CAJEROS_DB`, the embedding of `cajero_id in CAJEROS_DB`
followed by `CAJEROS_DB[cajero_id]`. -/
def lookupCajero (cid : String) : Option Cajero :=
  (CAJEROS_DB.find? (fun p => p.1 == cid)).map Prod.snd

/-- Outcome of the `login` route: 200 success greeting the cajero, or the
401 rejection for an unknown id or wrong pin. -/
inductive LoginResult where
  | exito (nombre : String)
  | error401
deriving DecidableEq

/-- HTTP status code of each `login` outcome. -/
def loginStatusCode : LoginResult → Nat
  | LoginResult.exito _ => 200
  | LoginResult.error401 => 401

/-- Embedding of the `login` route: when `cajero_id in CAJEROS_DB` and the
stored pin equals the supplied pin, store id and name in the session and
answer success; otherwise answer 401 leaving the session untouched. -/
def login (cid pin : String) (sess : SessionState) : LoginResult × SessionState :=
  match lookupCajero cid with
  | some c =>
    if c.pin = pin then (LoginResult.exito c.nombre, ⟨some cid, some c.nombre⟩)
    else (LoginResult.error401, sess)
  | none => (LoginResult.error401, sess)

/-- One core operation on the shared account, used to state the invariant
over sequences of calls. -/
inductive Op where
  | dep (monto : Int)
  | ret (monto : Int)
deriving DecidableEq

/-- The amount carried by an operation. -/
def Op.monto : Op → Int
  | Op.dep m => m
  | Op.ret m => m

/-- The saldo after executing one core operation. -/
def Op.step (saldo : Int) : Op → Int
  | Op.dep m => (CuentaBancaria.depositar saldo m).2
  | Op.ret m => (CuentaBancaria.retirar saldo m).2

/-- The saldo after executing a sequence of core operations in order. -/
def runOps (saldo : Int) (ops : List Op) : Int :=
  ops.foldl Op.step saldo

/-- The saldo after a sequence of deposits of the given amounts. -/
def runDeposits (saldo : Int) (montos : List Int) : Int :=
  montos.foldl (fun s m => (CuentaBancaria.depositar s m).2) saldo

/-- C1: `CuentaBancaria.retirar` succeeds iff `saldo ≥ monto`, and on
success it sets the saldo to `saldo - monto` and returns success together
with that new saldo. -/
theorem retirar_success_iff (saldo monto : Int) :
    ((∃ n, (CuentaBancaria.retirar saldo monto).1 = RetiroResult.exito n) ↔
      saldo ≥ monto) ∧
    (saldo ≥ monto →
      CuentaBancaria.retirar saldo monto =
        (RetiroResult.exito (saldo - monto), saldo - monto)) := by
  constructor
  · constructor
    · intro ⟨n, hn⟩
      by_contra h
      simp [CuentaBancaria.retirar, h] at hn
    · intro h
      exact ⟨saldo - monto, by simp [CuentaBancaria.retirar, h]⟩
  · intro h
    simp [CuentaBancaria.retirar, h]

/-- Witness for C1 at saldo 100, monto 40. -/
theorem retirar_success_iff_witness :
    CuentaBancaria.retirar 100 40 = (RetiroResult.exito 60, 60) :=
  (retirar_success_iff 100 40).2 (by decide)

/-- C2: when `saldo < monto`, `CuentaBancaria.retirar` leaves the saldo
unchanged and returns the typed failure carrying the saldo read at decision
time. -/
theorem retirar_insufficient (saldo monto : Int) (h : saldo < monto) :
    CuentaBancaria.retirar saldo monto =
      (RetiroResult.fondosInsuficientes saldo, saldo) := by
  simp [CuentaBancaria.retirar, not_le.mpr h]

/-- Witness for C2 at saldo 30, monto 50. -/
theorem retirar_insufficient_witness :
    CuentaBancaria.retirar 30 50 = (RetiroResult.fondosInsuficientes 30, 30) :=
  retirar_insufficient 30 50 (by decide)

/-- C3: for every positive `monto`, `CuentaBancaria.depositar` sets the
saldo to `saldo + monto` and the value it returns equals the saldo stored
immediately after the mutation. -/
theorem depositar_positive (saldo monto : Int) (_h : 0 < monto) :
    (CuentaBancaria.depositar saldo monto).2 = saldo + monto ∧
    (CuentaBancaria.depositar saldo monto).1 =
      (true, (CuentaBancaria.depositar saldo monto).2) := by
  exact ⟨rfl, rfl⟩

/-- Witness for C3 at saldo 1000, monto 250. -/
theorem depositar_positive_witness :
    (CuentaBancaria.depositar 1000 250).2 = 1250 ∧
    (CuentaBancaria.depositar 1000 250).1 =
      (true, (CuentaBancaria.depositar 1000 250).2) :=
  ⟨((depositar_positive 1000 250 (by decide)).1).trans (by decide),
   (depositar_positive 1000 250 (by decide)).2⟩

/-- C9: `CuentaBancaria.depositar` never fails: for every integer `monto`
it returns the success flag `true` and unconditionally sets the saldo to
`saldo + monto`; with a negative `monto` the saldo strictly decreases, and
a concrete direct call makes it negative. -/
theorem depositar_never_fails :
    (∀ saldo monto : Int,
      CuentaBancaria.depositar saldo monto = ((true, saldo + monto), saldo + monto)) ∧
    (∀ saldo monto : Int, monto < 0 →
      (CuentaBancaria.depositar saldo monto).2 < saldo) ∧
    (CuentaBancaria.depositar 100 (-150)).2 < 0 := by
  refine ⟨fun _ _ => rfl, fun saldo monto h => ?_, by decide⟩
  simpa [CuentaBancaria.depositar] using h

/-- Witness for C9 at saldo 100, monto -150. -/
theorem depositar_never_fails_witness :
    (CuentaBancaria.depositar 100 (-150)).2 < 100 :=
  depositar_never_fails.2.1 100 (-150) (by decide)

/-- C10: for every non-positive `monto` and non-negative `saldo`, a direct
call to `CuentaBancaria.retirar` succeeds and sets the saldo to
`saldo - monto`: with `monto = 0` the saldo is unchanged, and with a
negative `monto` the saldo strictly increases. -/
theorem retirar_nonpositive (saldo monto : Int) (h0 : 0 ≤ saldo) (hm : monto ≤ 0) :
    CuentaBancaria.retirar saldo monto =
      (RetiroResult.exito (saldo - monto), saldo - monto) ∧
    (monto = 0 → (CuentaBancaria.retirar saldo monto).2 = saldo) ∧
    (monto < 0 → saldo < (CuentaBancaria.retirar saldo monto).2) := by
  have hge : saldo ≥ monto := le_trans hm h0
  refine ⟨by simp [CuentaBancaria.retirar, hge], ?_, ?_⟩
  · intro h
    subst h
    simp [CuentaBancaria.retirar, h0]
  · intro h
    simp only [CuentaBancaria.retirar, hge, if_pos]
    omega

/-- Witness for C10 at saldo 20, monto -5. -/
theorem retirar_nonpositive_witness :
    CuentaBancaria.retirar 20 (-5) = (RetiroResult.exito 25, 25) ∧
    20 < (CuentaBancaria.retirar 20 (-5)).2 :=
  ⟨(retirar_nonpositive 20 (-5) (by decide) (by decide)).1,
   (retirar_nonpositive 20 (-5) (by decide) (by decide)).2.2 (by decide)⟩

/-- Helper: one core operation with a positive amount keeps the saldo
non-negative. -/
theorem Op.step_nonneg (saldo : Int) (o : Op) (h0 : 0 ≤ saldo)
    (hm : 0 < o.monto) : 0 ≤ Op.step saldo o := by
  cases o with
  | dep m =>
    simp only [Op.monto] at hm
    simp only [Op.step, CuentaBancaria.depositar]
    omega
  | ret m =>
    simp only [Op.step, CuentaBancaria.retirar]
    split <;> omega

/-- C4: starting from any non-negative saldo, every sequence of core
deposit and withdraw calls with positive amounts keeps the saldo observable
after each operation (i.e., after every prefix of the sequence)
non-negative. -/
theorem saldo_nonneg_invariant (ops : List Op) (saldo : Int) (h0 : 0 ≤ saldo)
    (hpos : ∀ op ∈ ops, 0 < op.monto) :
    ∀ n, 0 ≤ runOps saldo (ops.take n) := by
  induction ops generalizing saldo with
  | nil =>
    intro n
    simpa [runOps] using h0
  | cons o t ih =>
    intro n
    cases n with
    | zero => simpa [runOps] using h0
    | succ n =>
      have hstep : 0 ≤ Op.step saldo o :=
        Op.step_nonneg saldo o h0 (hpos o (List.mem_cons_self o t))
      have := ih (Op.step saldo o) hstep
        (fun op hop => hpos op (List.mem_cons_of_mem o hop)) n
      simpa [runOps, List.take_succ_cons] using this

/-- Witness for C4 on the sequence deposit 10, withdraw 5, withdraw 100
from saldo 0, observing after the third operation. -/
theorem saldo_nonneg_invariant_witness :
    0 ≤ runOps 0 ([Op.dep 10, Op.ret 5, Op.ret 100].take 3) :=
  saldo_nonneg_invariant [Op.dep 10, Op.ret 5, Op.ret 100] 0 (by decide)
    (by decide) 3

/-- Helper: folding deposits adds the list sum to the initial saldo. -/
theorem runDeposits_eq (B : Int) (l : List Int) :
    runDeposits B l = B + l.sum := by
  induction l generalizing B with
  | nil => simp [runDeposits]
  | cons m t ih =>
    have h1 : runDeposits B (m :: t) = runDeposits (B + m) t := rfl
    rw [h1, ih, List.sum_cons]
    ring

/-- C5: applying `CuentaBancaria.depositar` once per amount of a list, in
any order (any permutation), yields exactly the initial saldo plus the sum
of the amounts: no deposit is lost and the result is order-independent. -/
theorem deposits_sum_perm (B : Int) (l l2 : List Int) (hp : l.Perm l2) :
    runDeposits B l2 = B + l.sum := by
  rw [runDeposits_eq, hp.sum_eq]

/-- Witness for C5: depositing 1, 2, 3 in the order 3, 1, 2 from saldo 5. -/
theorem deposits_sum_perm_witness :
    runDeposits 5 [3, 1, 2] = 5 + ([1, 2, 3] : List Int).sum :=
  deposits_sum_perm 5 [1, 2, 3] [3, 1, 2] (by decide)

/-- C6: for an authenticated session, a deposit or withdraw request with a
non-positive amount is rejected with the 400 error response before the core
operation runs, and the saldo is unchanged. -/
theorem boundary_rejects_nonpositive (sess : SessionState) (c : String)
    (monto saldo : Int) (hs : sess.cajero_id = some c) (hm : monto ≤ 0) :
    handle_depositar sess monto saldo = (HandlerResult.errorMonto, saldo) ∧
    handle_retirar sess monto saldo = (HandlerResult.errorMonto, saldo) ∧
    statusCode HandlerResult.errorMonto = 400 := by
  refine ⟨?_, ?_, rfl⟩ <;>
    simp [handle_depositar, handle_retirar, hs, hm]

/-- Witness for C6 with a logged-in session, monto 0, saldo 77. -/
theorem boundary_rejects_nonpositive_witness :
    handle_depositar ⟨some "1001", some "Cajero Juan"⟩ 0 77 =
      (HandlerResult.errorMonto, 77) ∧
    handle_retirar ⟨some "1001", some "Cajero Juan"⟩ 0 77 =
      (HandlerResult.errorMonto, 77) ∧
    statusCode HandlerResult.errorMonto = 400 :=
  boundary_rejects_nonpositive ⟨some "1001", some "Cajero Juan"⟩ "1001" 0 77
    rfl (by decide)

/-- C7: a deposit or withdraw request without an authenticated session
(no `cajero_id` in the session) is rejected with the 401 auth error and the
saldo is never mutated, for every amount. -/
theorem auth_required (sess : SessionState) (monto saldo : Int)
    (hs : sess.cajero_id = none) :
    loginRequiredOk sess = false ∧
    handle_depositar sess monto saldo = (HandlerResult.authError, saldo) ∧
    handle_retirar sess monto saldo = (HandlerResult.authError, saldo) ∧
    statusCode HandlerResult.authError = 401 := by
  refine ⟨?_, ?_, ?_, rfl⟩ <;>
    simp [loginRequiredOk, handle_depositar, handle_retirar, hs]

/-- Witness for C7 with an empty session, monto 50, saldo 100. -/
theorem auth_required_witness :
    handle_depositar ⟨none, none⟩ 50 100 = (HandlerResult.authError, 100) ∧
    handle_retirar ⟨none, none⟩ 50 100 = (HandlerResult.authError, 100) :=
  ⟨(auth_required ⟨none, none⟩ 50 100 rfl).2.1,
   (auth_required ⟨none, none⟩ 50 100 rfl).2.2.1⟩

/-- C8: `login` establishes the session exactly when the supplied id is in
`CAJEROS_DB` and the supplied pin equals the stored pin; on a wrong pin or
an unknown id it answers 401 and leaves the session untouched. -/
theorem login_spec (cid pin : String) (sess : SessionState) :
    (∀ c, lookupCajero cid = some c → c.pin = pin →
      login cid pin sess =
        (LoginResult.exito c.nombre, ⟨some cid, some c.nombre⟩)) ∧
    (∀ c, lookupCajero cid = some c → c.pin ≠ pin →
      login cid pin sess = (LoginResult.error401, sess)) ∧
    (lookupCajero cid = none →
      login cid pin sess = (LoginResult.error401, sess)) ∧
    loginStatusCode LoginResult.error401 = 401 := by
  refine ⟨?_, ?_, ?_, rfl⟩
  · intro c hc hpin
    simp [login, hc, hpin]
  · intro c hc hpin
    simp [login, hc, hpin]
  · intro hc
    simp [login, hc]

/-- Witness for C8: correct credentials succeed; a wrong pin and an unknown
id are rejected leaving the session empty. -/
theorem login_spec_witness :
    login "1001" "1234" ⟨none, none⟩ =
      (LoginResult.exito "Cajero Juan", ⟨some "1001", some "Cajero Juan"⟩) ∧
    login "1001" "9999" ⟨none, none⟩ = (LoginResult.error401, ⟨none, none⟩) ∧
    login "4242" "1234" ⟨none, none⟩ = (LoginResult.error401, ⟨none, none⟩) :=
  ⟨(login_spec "1001" "1234" ⟨none, none⟩).1 ⟨1001, "Cajero Juan", "1234"⟩
      (by decide) rfl,
   (login_spec "1001" "9999" ⟨none, none⟩).2.1 ⟨1001, "Cajero Juan", "1234"⟩
      (by decide) (by decide),
   (login_spec "4242" "1234" ⟨none, none⟩).2.2.1 (by decide)⟩
